import Mathlib

/-!
Shallow embedding of `labelme/label_file.py` (the `LabelFile` loader/writer)
and verification of the specification claims about it.

External collaborators (the JSON parser, the PIL image codec, base64, the
filesystem) are modelled as an explicit `Env` of oracle functions; the control
flow, dictionary handling, string handling and error handling of the Python
code are translated directly.
-/

set_option autoImplicit false

/-- Python values as they occur in this program: JSON values plus the decoded
numpy arrays (`parr`, identified by their shape) and raw image bytes
(`pbytes`, abstract ids) that the code stores in shape dictionaries. -/
inductive PV where
  | none
  | pbool (b : Bool)
  | pint (n : Int)
  | pstr (s : String)
  | plist (xs : List PV)
  | pdict (kvs : List (String × PV))
  | parr (h w : Nat)
  | pbytes (b : Nat)
deriving Repr

/-- A Python dict with string keys, in insertion order. -/
abbrev Dict := List (String × PV)

/-- Abstract raw image bytes (an id supplied by the codec oracle). -/
abbrev ByteData := Nat

/-- Abstract in-memory PIL image (an id supplied by the codec oracle). -/
abbrev Img := Nat

/-- Python exceptions that the embedded code distinguishes. -/
inductive Exc where
  | keyError (k : String)
  | typeError
  | valueError
  | ioError
  | jsonError
  | indexError
deriving Repr, DecidableEq

/-- The error taxonomy of `label_file.py`: `AssertionError` from the `assert`
statements in `save`, `LabelFileError e` wrapping an original cause `e`
(`raise LabelFileError(e)`), and a raw uncaught exception. -/
inductive PyErr where
  | assertionError
  | labelFileError (cause : Exc)
  | raw (e : Exc)
deriving Repr, DecidableEq

/-- Levels of the logging sink (`logger.error` / `logger.warning` / ...). -/
inductive LogLevel where
  | error
  | warning
  | info
deriving Repr, DecidableEq

/-- One emitted log message. -/
abbrev LogEntry := LogLevel × String

/-- First value for a key in a dict (Python `d[k]` / `d.get(k)` lookup). -/
def dictGet (d : Dict) (k : String) : Option PV :=
  match d with
  | [] => Option.none
  | kv :: rest => if kv.1 == k then some kv.2 else dictGet rest k

/-- Python `d.get(k, dflt)`. -/
def pvGetD (d : Dict) (k : String) (dflt : PV) : PV :=
  match dictGet d k with
  | some v => v
  | Option.none => dflt

/-- Python `k in d`. -/
def dictHasKey (d : Dict) (k : String) : Bool :=
  match d with
  | [] => false
  | kv :: rest => kv.1 == k || dictHasKey rest k

/-- Python `d[k]`, raising `KeyError` when the key is missing. -/
def dictSubscr (d : Dict) (k : String) : Except Exc PV :=
  match dictGet d k with
  | some v => .ok v
  | Option.none => .error (.keyError k)


/-- Python truthiness (`if value:`) for the values the code tests this way.
The code only applies it to parsed JSON values; the truthiness of `parr` /
`pbytes` (which would involve numpy semantics) is never reached. -/
def pyTruthy : PV → Bool
  | .none => false
  | .pbool b => b
  | .pint n => n != 0
  | .pstr s => !s.isEmpty
  | .plist xs => !xs.isEmpty
  | .pdict kvs => !kvs.isEmpty
  | .parr _ _ => true
  | .pbytes _ => true

/-- Whether a value is Python `None`. -/
def pvIsNone : PV → Bool
  | .none => true
  | _ => false

/-- Python equality `n == v` between an `int` (an actual image dimension) and
a stored value; `True`/`False` compare equal to `1`/`0` as in Python. -/
def pyIntEqPV (n : Nat) (v : PV) : Bool :=
  match v with
  | .pint m => (n : Int) == m
  | .pbool b => (n : Int) == (if b then 1 else 0)
  | _ => false

/-- Python `str.split(sep)` over the character list (no run collapsing;
the empty string yields one empty field). -/
def splitChar (c : Char) : List Char → List (List Char)
  | [] => [[]]
  | x :: xs =>
    match splitChar c xs with
    | [] => [[]]
    | g :: gs => if x == c then [] :: g :: gs else (x :: g) :: gs

/-- Python `s.split(c)` returning strings. -/
def pySplit (s : String) (c : Char) : List String :=
  (splitChar c s.toList).map (fun cs => String.mk cs)


/-- Index (0-based) of the last occurrence of `c` in `cs`, if any
(Python `s.rfind(c)` restricted to single characters). -/
def lastIdxAux (c : Char) : List Char → Nat → Option Nat
  | [], _ => Option.none
  | x :: xs, i =>
    match lastIdxAux c xs (i + 1) with
    | some j => some j
    | Option.none => if x == c then some i else Option.none

/-- Python `s.rfind(c)` as an `Option Nat`. -/
def lastIdx (s : String) (c : Char) : Option Nat :=
  lastIdxAux c s.toList 0


/-- First `n` characters of a string (Python `s[:n]`). -/
def takeChars (s : String) (n : Nat) : String :=
  String.mk (s.toList.take n)

/-- Characters of a string from position `n` on (Python `s[n:]`). -/
def dropChars (s : String) (n : Nat) : String :=
  String.mk (s.toList.drop n)

/-- `posixpath.dirname`. -/
def pyDirname (p : String) : String :=
  match lastIdx p '/' with
  | Option.none => ""
  | some i =>
    let head := takeChars p (i + 1)
    if head.toList.all (fun c => c == '/') then head
    else String.mk ((head.toList.reverse.dropWhile (fun c => c == '/')).reverse)

/-- `posixpath.basename`. -/
def pyBasename (p : String) : String :=
  match lastIdx p '/' with
  | Option.none => p
  | some i => dropChars p (i + 1)

/-- `posixpath.join` for two components. -/
def pyJoin (a b : String) : String :=
  if b.toList.head? == some '/' then b
  else if a == "" || a.toList.getLast? == some '/' then a ++ b
  else a ++ "/" ++ b


/-- `posixpath.splitext`: split off the extension at the last dot of the last
path component, provided some earlier character of that component is not a
dot (so dotfiles have no extension). -/
def pySplitExt (p : String) : String × String :=
  let sepIdx : Int := match lastIdx p '/' with | some i => (i : Int) | Option.none => -1
  let dotIdx : Int := match lastIdx p '.' with | some i => (i : Int) | Option.none => -1
  if sepIdx < dotIdx then
    let fnameStart := (sepIdx + 1).toNat
    let dotN := dotIdx.toNat
    let between := (p.toList.drop fnameStart).take (dotN - fnameStart)
    if between.any (fun c => c != '.') then (takeChars p dotN, dropChars p dotN)
    else (p, "")
  else (p, "")


/-- Decimal digit character for `d < 10`. -/
def digitChar (d : Nat) : Char :=
  Char.ofNat (48 + d)

/-- Worker for `natDigits`; the fuel argument makes the recursion structural so
that the definition reduces definitionally. -/
def natDigitsAux : Nat → Nat → List Char
  | 0, _ => []
  | fuel + 1, m =>
    if m < 10 then [digitChar m]
    else natDigitsAux fuel (m / 10) ++ [digitChar (m % 10)]

/-- Decimal digits of a natural number, most significant first
(the characters of Python `str(n)` for `n ≥ 0`). -/
def natDigits (m : Nat) : List Char :=
  natDigitsAux (m + 1) m

/-- Python `str(n)` for an `int`. -/
def intRepr (n : Int) : String :=
  match n with
  | .ofNat m => String.mk (natDigits m)
  | .negSucc m => "-" ++ String.mk (natDigits (m + 1))


mutual

/-- Python `repr(v)` for the scalar values the code stringifies; containers
get a structural rendering (never reached by the translated code paths). -/
def pyRepr : PV → String
  | .none => "None"
  | .pbool true => "True"
  | .pbool false => "False"
  | .pint n => intRepr n
  | .pstr s => "'" ++ s ++ "'"
  | .plist xs => "[" ++ String.intercalate ", " (pyReprList xs) ++ "]"
  | .pdict kvs => "dict(" ++ String.intercalate ", " (pyReprDict kvs) ++ ")"
  | .parr h w => "array(" ++ intRepr h ++ "x" ++ intRepr w ++ ")"
  | .pbytes b => "bytes(" ++ intRepr b ++ ")"

/-- Renderings of the elements of a list value. -/
def pyReprList : List PV → List String
  | [] => []
  | x :: xs => pyRepr x :: pyReprList xs

/-- Renderings of the entries of a dict value. -/
def pyReprDict : List (String × PV) → List String
  | [] => []
  | kv :: rest => (kv.1 ++ ": " ++ pyRepr kv.2) :: pyReprDict rest

end

/-- Python `str(v)`. -/
def pyStr : PV → String
  | .pstr s => s
  | v => pyRepr v


/-- Python `s.zfill(w)`: left-pad with zeros to width `w`, keeping a leading
sign in front of the padding. -/
def pyZfill (s : String) (w : Nat) : String :=
  if w ≤ s.toList.length then s
  else
    match s.toList with
    | [] => String.mk (List.replicate w '0')
    | c :: rest =>
      if c == '+' || c == '-' then
        String.mk (c :: (List.replicate (w - s.toList.length) '0' ++ rest))
      else
        String.mk (List.replicate (w - s.toList.length) '0' ++ s.toList)


/-- The external collaborators of `label_file.py`, modelled as oracles: the
JSON parser over the filesystem, the PIL image codec, base64, the logging-free
parts of the filesystem, and the `labelme.__version__` constant. -/
structure Env where
  /-- `json.load(open(filename))`; errors cover I/O and malformed JSON. -/
  readJson : String → Except Exc PV
  /-- `PIL.Image.open(filename)`; `none` models the `IOError` family. -/
  openImage : String → Option Img
  /-- `utils.apply_exif_orientation`. -/
  exifOrient : Img → Img
  /-- re-encoding an image to `"PNG"` or `"JPEG"` bytes via `BytesIO`. -/
  encodeImage : Img → String → ByteData
  /-- `base64.b64decode` of a string. -/
  b64decode : String → Except Exc ByteData
  /-- `base64.b64encode(...).decode("utf-8")`. -/
  b64encode : ByteData → String
  /-- `utils.img_b64_to_arr(...)`, returning the decoded array's
  `(shape[0], shape[1])`; errors cover bad base64 and image decode failure. -/
  imgB64ToArr : String → Except Exc (Nat × Nat)
  /-- `osp.exists`. -/
  pathExists : String → Bool
  /-- whether `open(path, "w")` and the subsequent dump succeed as I/O. -/
  writeOk : String → Bool
  /-- `labelme.__version__`. -/
  version : String

/-- `LabelFile.load_image_file`: open the image; on failure log an error and
return `None`; on success apply EXIF orientation and re-encode (JPEG for
`.jpg`/`.jpeg` extensions, PNG otherwise; `PY2 and QT4` is `False`). -/
def LabelFile.load_image_file (env : Env) (filename : String) :
    Option ByteData × List LogEntry :=
  match env.openImage filename with
  | Option.none =>
    (Option.none, [(LogLevel.error, "Failed opening image file: " ++ filename)])
  | some img =>
    let oriented := env.exifOrient img
    let ext := (pySplitExt filename).2.toLower
    let fmt := if ext == ".jpg" || ext == ".jpeg" then "JPEG" else "PNG"
    (some (env.encodeImage oriented fmt), [])

/-- Log message of `_check_image_height_and_width` for a height mismatch
(the two adjacent string literals of the source, concatenated). -/
def heightMismatchMsg : String :=
  "imageHeight does not match with imageData or imagePath, so getting imageHeight from actual image."

/-- Log message of `_check_image_height_and_width` for a width mismatch. -/
def widthMismatchMsg : String :=
  "imageWidth does not match with imageData or imagePath, so getting imageWidth from actual image."

/-- `LabelFile._check_image_height_and_width`: decode the base64 image; for
each declared dimension that is present (`is not None`) and differs from the
decoded array's shape, log via `logger.error` and replace it by the actual
value; return the reconciled pair together with the emitted log. -/
def LabelFile.check_image_height_and_width (env : Env) (imageData : String)
    (imageHeight imageWidth : PV) : Except Exc ((PV × PV) × List LogEntry) :=
  match env.imgB64ToArr imageData with
  | .error e => .error e
  | .ok hw =>
    let hMis := !pvIsNone imageHeight && !pyIntEqPV hw.1 imageHeight
    let wMis := !pvIsNone imageWidth && !pyIntEqPV hw.2 imageWidth
    let newH := if hMis then PV.pint (hw.1 : Int) else imageHeight
    let newW := if wMis then PV.pint (hw.2 : Int) else imageWidth
    let logH : List LogEntry := if hMis then [(LogLevel.error, heightMismatchMsg)] else []
    let logW : List LogEntry := if wMis then [(LogLevel.error, widthMismatchMsg)] else []
    .ok ((newH, newW), logH ++ logW)

/-- The recognized top-level record keys of `LabelFile.load`. -/
def recordKeys : List String :=
  ["version", "imageData", "imagePath", "shapes", "flags",
   "imageHeight", "imageWidth", "date", "latitude", "longitude"]

/-- The recognized shape-level keys of `LabelFile.load`. -/
def shapeKeys : List String :=
  ["label", "points", "group_id", "shape_type", "flags", "description", "mask"]

/-- The mask step of a shape: `img_b64_to_arr(s["mask"]).astype(bool) if
s.get("mask") else None`. -/
def loadMask (env : Env) (kvs : Dict) : Except Exc PV :=
  if pyTruthy (pvGetD kvs "mask" PV.none) then
    match pvGetD kvs "mask" PV.none with
    | .pstr ms =>
      match env.imgB64ToArr ms with
      | .error e => .error e
      | .ok hw => .ok (PV.parr hw.1 hw.2)
    | _ => .error .typeError
  else .ok PV.none

/-- Normalization of one entry of `data["shapes"]` into the canonical shape
dict built by `LabelFile.load` (keys in the order of the `dict(...)` call;
unrecognized keys are bucketed into `other_data`). -/
def loadShape (env : Env) (s : PV) : Except Exc Dict :=
  match s with
  | .pdict kvs =>
    match dictSubscr kvs "label" with
    | .error e => .error e
    | .ok label =>
      match dictSubscr kvs "points" with
      | .error e => .error e
      | .ok points =>
        match loadMask env kvs with
        | .error e => .error e
        | .ok mask =>
          .ok [("label", label),
               ("points", points),
               ("shape_type", pvGetD kvs "shape_type" (PV.pstr "polygon")),
               ("flags", pvGetD kvs "flags" (PV.pdict [])),
               ("description", pvGetD kvs "description" PV.none),
               ("group_id", pvGetD kvs "group_id" PV.none),
               ("mask", mask),
               ("other_data", PV.pdict (kvs.filter (fun kv => !(shapeKeys.contains kv.1))))]
  | _ => .error .typeError

/-- Python iteration `for s in v` over a parsed JSON value: lists yield their
elements, dicts their keys, strings their characters; anything else raises
`TypeError`. -/
def toIterable (v : PV) : Except Exc (List PV) :=
  match v with
  | .plist xs => .ok xs
  | .pdict kvs => .ok (kvs.map (fun kv => PV.pstr kv.1))
  | .pstr s => .ok (s.toList.map (fun c => PV.pstr (String.mk [c])))
  | _ => .error .typeError

/-- The `shapes = [...]` comprehension of `LabelFile.load`. -/
def loadShapesStep (env : Env) (data : Dict) : Except Exc (List Dict) :=
  match dictSubscr data "shapes" with
  | .error e => .error e
  | .ok sv =>
    match toIterable sv with
    | .error e => .error e
    | .ok items => items.mapM (loadShape env)

/-- The local variables of `LabelFile.load` at the point where the `try`
block has succeeded. -/
structure LoadOk where
  data : Dict
  flags : PV
  shapes : List Dict
  imagePath : PV
  imageData : Option ByteData

/-- The image-bytes determination step of `LabelFile.load`: a non-null
`imageData` string is base64-decoded; a null one makes the loader resolve
`imagePath` relative to the label file's directory and read that image
(which may gracefully yield no bytes, with an error logged). -/
def loadImageBytes (env : Env) (filename : String) (data : Dict) (idv : PV) :
    Except Exc (Option ByteData) × List LogEntry :=
  match idv with
  | PV.none =>
    match dictSubscr data "imagePath" with
    | .error e => (.error e, [])
    | .ok (.pstr rel) =>
      let ipath := pyJoin (pyDirname filename) rel
      let r := LabelFile.load_image_file env ipath
      (.ok r.1, r.2)
    | .ok _ => (.error .typeError, [])
  | .pstr s => ((env.b64decode s).map some, [])
  | _ => (.error .typeError, [])

/-- The rest of the `try` block after the image bytes were determined:
compute `flags`, re-read `imagePath`, base64-encode the bytes
(`b64encode(None)` raises `TypeError`), run the dimension check (whose
reconciled result is discarded, exactly as in the source), and normalize the
shapes. Returns the check's log. -/
def loadTail (env : Env) (data : Dict) (imageDataOpt : Option ByteData) :
    Except Exc LoadOk × List LogEntry :=
  let flagsV := pvGetD data "flags" PV.none
  let flags := if pyTruthy flagsV then flagsV else PV.pdict []
  match dictSubscr data "imagePath" with
  | .error e => (.error e, [])
  | .ok imagePath2 =>
    match imageDataOpt with
    | Option.none => (.error .typeError, [])
    | some b =>
      let enc := env.b64encode b
      match LabelFile.check_image_height_and_width env enc
          (pvGetD data "imageHeight" PV.none) (pvGetD data "imageWidth" PV.none) with
      | .error e => (.error e, [])
      | .ok chk =>
        match loadShapesStep env data with
        | .error e => (.error e, chk.2)
        | .ok shapes =>
          (.ok ⟨data, flags, shapes, imagePath2, some b⟩, chk.2)

/-- The `try` block of `LabelFile.load`, with the log it emits. -/
def loadFromData (env : Env) (filename : String) (data : Dict) :
    Except Exc LoadOk × List LogEntry :=
  match dictSubscr data "imageData" with
  | .error e => (.error e, [])
  | .ok idv =>
    match loadImageBytes env filename data idv with
    | (.error e, lg) => (.error e, lg)
    | (.ok imageDataOpt, lg) =>
      let t := loadTail env data imageDataOpt
      (t.1, lg ++ t.2)

/-- `LabelFile.load` up to the commit point. -/
def loadAttempt (env : Env) (filename : String) :
    Except Exc LoadOk × List LogEntry :=
  match env.readJson filename with
  | .error e => (.error e, [])
  | .ok (.pdict data) => loadFromData env filename data
  | .ok _ => (.error .typeError, [])

/-- The in-memory record held by a `LabelFile` object: exactly the attributes
that `LabelFile.load` assigns (there are no `imageHeight`/`imageWidth`
attributes). -/
structure Record where
  flags : PV
  shapes : List Dict
  imagePath : PV
  imageData : Option ByteData
  filename : Option String
  otherData : Dict
  date : PV
  latitude : PV
  longitude : PV

/-- The fresh record built by `LabelFile.__init__` before any load. -/
def record0 : Record :=
  ⟨PV.pdict [], [], PV.none, Option.none, Option.none, [], PV.none, PV.none, PV.none⟩

/-- `LabelFile.load`: on any failure inside the `try` block the original
exception is wrapped in a `LabelFileError` and the record is left untouched;
only after everything succeeded is the new state committed. -/
def LabelFile.load (env : Env) (filename : String) (self : Record) :
    Record × Option PyErr × List LogEntry :=
  match loadAttempt env filename with
  | (.error e, lg) => (self, some (PyErr.labelFileError e), lg)
  | (.ok r, lg) =>
    ({ flags := r.flags
       shapes := r.shapes
       imagePath := r.imagePath
       imageData := r.imageData
       filename := some filename
       otherData := r.data.filter (fun kv => !(recordKeys.contains kv.1))
       date := pvGetD r.data "date" PV.none
       latitude := pvGetD r.data "latitude" PV.none
       longitude := pvGetD r.data "longitude" PV.none },
     Option.none, lg)

/-- The metadata `LabelFile.save` derives from the image path. -/
structure DerivedMeta where
  date : PV
  latitude : String
  longitude : String
deriving Repr

/-- The default metadata used when the token pattern does not fit. -/
def defaultMeta : DerivedMeta :=
  ⟨PV.pdict [("year", PV.pstr ""), ("month", PV.pstr "")], "", ""⟩

/-- Python `parts[-i]` (negative indexing; `IndexError` as `none`). -/
def pyNegIdx (l : List String) (i : Nat) : Option String :=
  if l.length < i then Option.none else l.get? (l.length - i)

/-- The filename-metadata derivation at the top of `LabelFile.save`: strip the
extension from `imagePath`, split the stem on `_`, read longitude, latitude
and a `YEAR.MONTH` date token at positions `-3`, `-4`, `-6`; any `IndexError`
or `ValueError` falls back to the empty defaults. -/
def deriveMetadata (imagePath : String) : DerivedMeta :=
  let stem := (pySplitExt imagePath).1
  let parts := pySplit stem '_'
  match pyNegIdx parts 3, pyNegIdx parts 4, pyNegIdx parts 6 with
  | some lon, some lat, some dateStr =>
    match pySplit dateStr '.' with
    | [y, m] => ⟨PV.pdict [("year", PV.pstr y), ("month", PV.pstr m)], lat, lon⟩
    | _ => defaultMeta
  | _, _, _ => defaultMeta


/-- The entry that `save` emits per shape into the first derived format:
`{points, shape_type, class, location_id}` with
`location_id = f"id_{base_dir}_{str(shape.get('group_id', 'unknown')).zfill(3)}"`. -/
def formatAEntry (baseDir : String) (shape : Dict) : PV :=
  PV.pdict
    [("points", pvGetD shape "points" PV.none),
     ("shape_type", pvGetD shape "shape_type" PV.none),
     ("class", pvGetD shape "label" PV.none),
     ("location_id",
      PV.pstr ("id_" ++ baseDir ++ "_" ++
        pyZfill (pyStr (pvGetD shape "group_id" (PV.pstr "unknown"))) 3))]

/-- The entry that `save` emits per shape into the second derived format:
`{label, points, group_id, description, shape_type, flags}` with defaults
`"unknown"`, `""` and `{}`. -/
def formatBEntry (shape : Dict) : PV :=
  PV.pdict
    [("label", pvGetD shape "label" PV.none),
     ("points", pvGetD shape "points" PV.none),
     ("group_id", pvGetD shape "group_id" (PV.pstr "unknown")),
     ("description", pvGetD shape "description" (PV.pstr "")),
     ("shape_type", pvGetD shape "shape_type" PV.none),
     ("flags", pvGetD shape "flags" (PV.pdict []))]

/-- The `for key, value in otherData.items(): assert key not in data;
data[key] = value` merge loop of `save`. -/
def mergeOther (base : Dict) (other : Dict) : Except Exc Dict :=
  match other with
  | [] => .ok base
  | kv :: rest =>
    if dictHasKey base kv.1 then .error .valueError
    else mergeOther (base ++ [kv]) rest

mutual

/-- Whether `json.dump` succeeds on a value (it raises `TypeError` on the
non-JSON values `parr`/`pbytes`). -/
def jsonDumpOk : PV → Bool
  | .plist xs => jsonDumpOkList xs
  | .pdict kvs => jsonDumpOkDict kvs
  | .parr _ _ => false
  | .pbytes _ => false
  | _ => true

/-- Serializability of the elements of a list value. -/
def jsonDumpOkList : List PV → Bool
  | [] => true
  | x :: xs => jsonDumpOk x && jsonDumpOkList xs

/-- Serializability of the entries of a dict value. -/
def jsonDumpOkDict : List (String × PV) → Bool
  | [] => true
  | kv :: rest => jsonDumpOk kv.2 && jsonDumpOkDict rest

end

/-- One `with open(path, "w") as f: json.dump(obj, f, ...)` write attempt. -/
def writeJson (env : Env) (path : String) (v : PV) : Except Exc Unit :=
  if !env.writeOk path then .error .ioError
  else if !jsonDumpOk v then .error .typeError
  else .ok ()

/-- Python-style `x if x is not None else dflt` for optional arguments. -/
def optD {A : Type} (o : Option A) (dflt : A) : A :=
  match o with
  | some x => x
  | Option.none => dflt

/-- The preparation step of `save`: if image bytes are supplied, base64-encode
them and reconcile the dimensions via the check; returns the encoded string
(if any), the dimensions to store, and the check's log. -/
def savePrepare (env : Env) (imageData : Option ByteData)
    (imageHeight imageWidth : PV) :
    Except Exc (Option String × PV × PV × List LogEntry) :=
  match imageData with
  | Option.none => .ok (Option.none, imageHeight, imageWidth, [])
  | some b =>
    let enc := env.b64encode b
    match LabelFile.check_image_height_and_width env enc imageHeight imageWidth with
    | .error e => .error e
    | .ok chk => .ok (some enc, chk.1.1, chk.1.2, chk.2)

/-- The canonical-format output object of `save`, before the `otherData`
merge. -/
def canonicalDict (version : String) (flg : PV) (shapes : List Dict)
    (imagePath : String) (encOpt : Option String) (ih iw : PV) : Dict :=
  [("version", PV.pstr version),
   ("flags", flg),
   ("shapes", PV.plist (shapes.map PV.pdict)),
   ("imagePath", PV.pstr imagePath),
   ("imageData", match encOpt with | some s => PV.pstr s | Option.none => PV.none),
   ("imageHeight", ih),
   ("imageWidth", iw)]

/-- The derived-format-A output object of `save` (shape entries reduced and
renamed, plus the derived date/latitude/longitude), before the `otherData`
merge; `imageData if imageData else ""` collapses an absent or empty encoding
to the empty string. -/
def formatADict (version : String) (flg : PV) (shapes : List Dict)
    (baseDir : String) (imagePath : String) (encOpt : Option String)
    (ih iw : PV) (md : DerivedMeta) : Dict :=
  [("version", PV.pstr version),
   ("flags", flg),
   ("shapes", PV.plist (shapes.map (formatAEntry baseDir))),
   ("imagePath", PV.pstr imagePath),
   ("imageData", PV.pstr (match encOpt with | some s => s | Option.none => "")),
   ("imageHeight", ih),
   ("imageWidth", iw),
   ("date", md.date),
   ("latitude", PV.pstr md.latitude),
   ("longitude", PV.pstr md.longitude)]

/-- The derived-format-B output object of `save`, before the `otherData`
merge. -/
def formatBDict (version : String) (flg : PV) (shapes : List Dict)
    (imagePath : String) (encOpt : Option String) (ih iw : PV) : Dict :=
  [("version", PV.pstr version),
   ("flags", flg),
   ("shapes", PV.plist (shapes.map formatBEntry)),
   ("imagePath", PV.pstr imagePath),
   ("imageData", PV.pstr (match encOpt with | some s => s | Option.none => "")),
   ("imageHeight", ih),
   ("imageWidth", iw)]

/-- The outcome of a `save` call: the successful complete file writes in
order, the directories created, the log emitted, and the first uncaught
exception (if any) at which the call aborted. -/
structure SaveResult where
  writes : List (String × PV)
  dirs : List String
  logs : List LogEntry
  error : Option PyErr

/-- `LabelFile.save`: derive the filename metadata, reconcile dimensions when
image bytes are supplied, then attempt the three writes in order (canonical
file, derived format A in `<base_dir>_labeled`, derived format B in
`<base_dir>_labeled_formatted`), merging `otherData` into each output object
under the no-collision `assert`; a failure aborts the call at that point,
keeping the writes already made. -/
def LabelFile.save (env : Env) (filename : String) (shapes : List Dict)
    (imagePath : String) (imageHeight imageWidth : PV)
    (imageData : Option ByteData) (otherData : Option Dict)
    (flags : Option PV) : SaveResult :=
  let baseDir := pyBasename (pyDirname filename)
  let md := deriveMetadata imagePath
  match savePrepare env imageData imageHeight imageWidth with
  | .error e => ⟨[], [], [], some (PyErr.raw e)⟩
  | .ok prep =>
    let encOpt := prep.1
    let ih := prep.2.1
    let iw := prep.2.2.1
    let lg := prep.2.2.2
    let other := optD otherData []
    let flg := optD flags (PV.pdict [])
    let dataC := canonicalDict env.version flg shapes imagePath encOpt ih iw
    match mergeOther dataC other with
    | .error _ => ⟨[], [], lg, some PyErr.assertionError⟩
    | .ok dC =>
      match writeJson env filename (PV.pdict dC) with
      | .error e => ⟨[], [], lg, some (PyErr.labelFileError e)⟩
      | .ok _ =>
        let labeledDir := pyJoin (pyDirname (pyDirname filename)) (baseDir ++ "_labeled")
        let dirs1 := if env.pathExists labeledDir then [] else [labeledDir]
        let newFilename := pyJoin labeledDir (pyBasename filename)
        let dataA := formatADict env.version flg shapes baseDir imagePath encOpt ih iw md
        match mergeOther dataA other with
        | .error _ =>
          ⟨[(filename, PV.pdict dC)], dirs1, lg, some PyErr.assertionError⟩
        | .ok dA =>
          match writeJson env newFilename (PV.pdict dA) with
          | .error e =>
            ⟨[(filename, PV.pdict dC)], dirs1, lg, some (PyErr.labelFileError e)⟩
          | .ok _ =>
            let formattedDir :=
              pyJoin (pyDirname (pyDirname filename)) (baseDir ++ "_labeled_formatted")
            let dirs2 := dirs1 ++ (if env.pathExists formattedDir then [] else [formattedDir])
            let newFilename2 := pyJoin formattedDir (pyBasename filename)
            let dataB := formatBDict env.version flg shapes imagePath encOpt ih iw
            match mergeOther dataB other with
            | .error _ =>
              ⟨[(filename, PV.pdict dC), (newFilename, PV.pdict dA)], dirs2, lg,
               some PyErr.assertionError⟩
            | .ok dB =>
              match writeJson env newFilename2 (PV.pdict dB) with
              | .error e =>
                ⟨[(filename, PV.pdict dC), (newFilename, PV.pdict dA)], dirs2, lg,
                 some (PyErr.labelFileError e)⟩
              | .ok _ =>
                ⟨[(filename, PV.pdict dC), (newFilename, PV.pdict dA),
                  (newFilename2, PV.pdict dB)], dirs2, lg, Option.none⟩

/-- Field access on a dict value, for stating properties of output objects. -/
def pvField (v : PV) (k : String) : PV :=
  match v with
  | .pdict kvs => pvGetD kvs k PV.none
  | _ => PV.none

/-- Element access on a list value, for stating properties of output objects. -/
def pvItem (v : PV) (i : Nat) : PV :=
  match v with
  | .plist xs => xs.getD i PV.none
  | _ => PV.none

/-- The keys of a dict value, in order. -/
def pdictKeysOf (v : PV) : List String :=
  match v with
  | .pdict kvs => kvs.map Prod.fst
  | _ => []

/-- The content of the `i`-th successful write of a `save` call. -/
def writeContent (r : SaveResult) (i : Nat) : PV :=
  (r.writes.getD i ("", PV.none)).2

/-- The cause carried by a failed load attempt. -/
def attemptExc (r : Except Exc LoadOk) : Exc :=
  match r with
  | .error c => c
  | .ok _ => .ioError

/-- Log entries of a dimension-check result (empty when the check raised). -/
def checkLogs (r : Except Exc ((PV × PV) × List LogEntry)) : List LogEntry :=
  match r with
  | .ok p => p.2
  | .error _ => []

/-- "A declared dimension is present and disagrees with the actual one",
written from the spec's words, for comparison with the code's condition. -/
def declaredDisagrees (declared : PV) (actual : Nat) : Bool :=
  match declared with
  | PV.none => false
  | v => !pyIntEqPV actual v

/-- The record file used by the C4 examples: one unrecognized top-level key
(`extra`) and one shape with an unrecognized key (`custom`). -/
def c4shape : Dict :=
  [("label", PV.pstr "cat"), ("points", PV.plist []), ("custom", PV.pint 5)]

/-- Top-level JSON object of the C4 example record file. -/
def c4data : Dict :=
  [("version", PV.pstr "4.5.6"), ("imageData", PV.pstr "B64"),
   ("imagePath", PV.pstr "a.png"), ("shapes", PV.plist [PV.pdict c4shape]),
   ("extra", PV.pstr "keepme")]

/-- A concrete environment: `d/f.json` declares dimensions disagreeing with
the decoded image, `d/g.json` has null `imageData` and an `imagePath` that no
image can be opened from, `d/h.json` is the C4 record; the codec decodes the
only known base64 payload `"B64"` to a 10 x 20 image. -/
def exEnv : Env :=
  { readJson := fun p =>
      if p == "d/f.json" then
        .ok (PV.pdict
          [("imageData", PV.pstr "B64"), ("imagePath", PV.pstr "a.png"),
           ("shapes", PV.plist []), ("imageHeight", PV.pint 99),
           ("imageWidth", PV.pint 77)])
      else if p == "d/g.json" then
        .ok (PV.pdict
          [("imageData", PV.none), ("imagePath", PV.pstr "img.png"),
           ("shapes", PV.plist [])])
      else if p == "d/h.json" then .ok (PV.pdict c4data)
      else .error .ioError
    openImage := fun _ => Option.none
    exifOrient := fun i => i
    encodeImage := fun i _ => i
    b64decode := fun s => if s == "B64" then .ok 1 else .error .valueError
    b64encode := fun _ => "B64"
    imgB64ToArr := fun s => if s == "B64" then .ok (10, 20) else .error .valueError
    pathExists := fun _ => false
    writeOk := fun _ => true
    version := "5.0.1" }

/-- The record loaded from the C4 example file. -/
def recC4 : Record :=
  (LabelFile.load exEnv "d/h.json" record0).1

/-- Saving the C4 record with its own shapes, image path and `otherData`. -/
def svC4 : SaveResult :=
  LabelFile.save exEnv "t/u/out.json" recC4.shapes "a.png" PV.none PV.none
    recC4.imageData (some recC4.otherData) Option.none

/-- The canonical output object written by `svC4`. -/
def c4dC : Dict :=
  match svC4.writes.head? with
  | some (_, PV.pdict d) => d
  | _ => []

/-- The canonical shape dict that `load` builds from `c4shape`. -/
def sdC4 : Dict :=
  match loadShape exEnv (PV.pdict c4shape) with
  | .ok d => d
  | .error _ => []

/-- A shape whose `group_id` key is present but null. -/
def shapeNullGid : Dict :=
  [("label", PV.pstr "tree"), ("points", PV.plist []), ("group_id", PV.none)]

/-- A shape without a `group_id` key. -/
def shapeNoGid : Dict :=
  [("label", PV.pstr "rock"), ("points", PV.plist [])]

/-- A shape with a small numeric `group_id`. -/
def shapePosGid : Dict :=
  [("label", PV.pstr "car"), ("points", PV.plist []), ("group_id", PV.pint 7)]

/-- The shape list of the C8 example save. -/
def shapesEx : List Dict :=
  [shapeNullGid, shapePosGid]

/-- A fully successful three-file save used by several witnesses. -/
def svC8 : SaveResult :=
  LabelFile.save exEnv "top/dir/out.json" shapesEx "p.png" PV.none PV.none
    Option.none Option.none Option.none

/-- Zero-padding to (at least) three characters, written from the spec's
words ("zero-padded to 3 digits") for comparison with the code's `zfill`. -/
def specPad3 (s : String) : String :=
  if s.toList.length < 3 then
    String.mk (List.replicate (3 - s.toList.length) '0' ++ s.toList)
  else s

theorem dictHasKey_append (a b : Dict) (k : String) :
    dictHasKey (a ++ b) k = (dictHasKey a k || dictHasKey b k) := by
  induction a with
  | nil => simp [dictHasKey]
  | cons kv rest ih => simp [dictHasKey, ih, Bool.or_assoc]

theorem dictGet_append_right (a b : Dict) (k : String)
    (h : dictHasKey a k = false) : dictGet (a ++ b) k = dictGet b k := by
  induction a with
  | nil => simp
  | cons kv rest ih =>
    simp only [dictHasKey] at h
    have h1 : (kv.1 == k) = false := by
      cases hkv : (kv.1 == k) <;> simp [hkv] at h ⊢
    have h2 : dictHasKey rest k = false := by
      cases hr : dictHasKey rest k <;> simp [hr, h1] at h ⊢
    simp only [List.cons_append, dictGet, h1]
    simpa using ih h2

theorem dictGet_append_left (a b : Dict) (k : String) (v : PV)
    (h : dictGet a k = some v) : dictGet (a ++ b) k = some v := by
  induction a with
  | nil => simp [dictGet] at h
  | cons kv rest ih =>
    simp only [List.cons_append, dictGet] at h ⊢
    cases hk : (kv.1 == k) with
    | true => simpa [hk] using h
    | false =>
      rw [hk] at h
      simp only [Bool.false_eq_true, if_false] at h ⊢
      exact ih h

theorem dictGet_filter (l : Dict) (p : String × PV → Bool) (k : String)
    (hp : ∀ v : PV, p (k, v) = true) :
    dictGet (l.filter p) k = dictGet l k := by
  induction l with
  | nil => simp
  | cons kv rest ih =>
    by_cases hk : kv.1 = k
    · have hpkv : p kv = true := by
        have := hp kv.2
        rw [← hk] at this
        simpa using this
      simp [List.filter_cons, hpkv, dictGet, hk]
    · have hbk : (kv.1 == k) = false := by simp [hk]
      by_cases hpkv : p kv = true
      · simp [List.filter_cons, hpkv, dictGet, hbk, ih]
      · simp only [Bool.not_eq_true] at hpkv
        simp [List.filter_cons, hpkv, dictGet, hbk, ih]

theorem mergeOther_ok_eq (other : Dict) (base d : Dict)
    (h : mergeOther base other = .ok d) : d = base ++ other := by
  induction other generalizing base with
  | nil =>
    simp only [mergeOther] at h
    cases h
    simp
  | cons kv rest ih =>
    simp only [mergeOther] at h
    cases hk : dictHasKey base kv.1 with
    | true => simp [hk] at h
    | false =>
      rw [hk] at h
      simp only [Bool.false_eq_true, if_false] at h
      have := ih (base ++ [kv]) h
      simpa [List.append_assoc] using this

theorem mergeOther_error_of_mem (other : Dict) (base : Dict)
    (kv : String × PV) (hmem : kv ∈ other)
    (hkey : dictHasKey base kv.1 = true) :
    mergeOther base other = .error .valueError := by
  induction other generalizing base with
  | nil => cases hmem
  | cons kv0 rest ih =>
    simp only [mergeOther]
    cases h0 : dictHasKey base kv0.1 with
    | true => simp
    | false =>
      simp only [Bool.false_eq_true, if_false]
      rcases List.mem_cons.mp hmem with heq | hrest
      · subst heq
        rw [hkey] at h0
        cases h0
      · exact ih (base ++ [kv0]) hrest (by simp [dictHasKey_append, hkey])

theorem mergeOther_ok_of_disjoint (other : Dict) (base : Dict)
    (hdisj : ∀ kv ∈ other, dictHasKey base kv.1 = false)
    (hnd : (other.map Prod.fst).Nodup) :
    mergeOther base other = .ok (base ++ other) := by
  induction other generalizing base with
  | nil => simp [mergeOther]
  | cons kv0 rest ih =>
    simp only [mergeOther]
    have h0 : dictHasKey base kv0.1 = false := hdisj kv0 (by simp)
    rw [h0]
    simp only [Bool.false_eq_true, if_false]
    have hnods : kv0.1 ∉ rest.map Prod.fst ∧ (rest.map Prod.fst).Nodup := by
      constructor
      · exact (List.nodup_cons.mp (by simpa using hnd)).1
      · exact (List.nodup_cons.mp (by simpa using hnd)).2
    have hne : ∀ kv ∈ rest, (kv0.1 == kv.1) = false := by
      intro kv hkv
      have hne2 : kv0.1 ≠ kv.1 := by
        intro hcontra
        exact hnods.1 (by rw [hcontra]; exact List.mem_map_of_mem Prod.fst hkv)
      simp [hne2]
    have := ih (base ++ [kv0])
      (fun kv hkv => by
        simp [dictHasKey_append, hdisj kv (List.mem_cons_of_mem kv0 hkv),
          dictHasKey, hne kv hkv])
      hnods.2
    simpa [List.append_assoc] using this

theorem loadTail_ok_data (env : Env) (d : Dict) (opt : Option ByteData)
    (r : LoadOk) (lg : List LogEntry)
    (h : loadTail env d opt = (.ok r, lg)) : r.data = d := by
  unfold loadTail at h
  dsimp only at h
  repeat' split at h
  all_goals injection h with h1 h2
  all_goals cases h1
  all_goals rfl

theorem digitChar_not_sign (d : Nat) (hd : d < 10) :
    (digitChar d == '+') = false ∧ (digitChar d == '-') = false := by
  interval_cases d <;> exact ⟨rfl, rfl⟩

theorem natDigitsAux_head (fuel m : Nat) (h : m < fuel) :
    ∃ d, d < 10 ∧ (natDigitsAux fuel m).head? = some (digitChar d) := by
  induction fuel generalizing m with
  | zero => omega
  | succ fuel ih =>
    by_cases h10 : m < 10
    · exact ⟨m, h10, by simp [natDigitsAux, h10]⟩
    · have hds : m / 10 < m := Nat.div_lt_self (by omega) (by omega)
      obtain ⟨d, hd, hh⟩ := ih (m / 10) (by omega)
      refine ⟨d, hd, ?_⟩
      simp [natDigitsAux, h10, List.head?_append, hh]

theorem pyZfill_natDigits (m : Nat) :
    pyZfill (String.mk (natDigits m)) 3 = specPad3 (String.mk (natDigits m)) := by
  obtain ⟨d, hd, hh⟩ := natDigitsAux_head (m + 1) m (Nat.lt_succ_self m)
  have hlist : (String.mk (natDigits m)).toList = natDigits m := rfl
  by_cases hlen : 3 ≤ (natDigits m).length
  · simp [pyZfill, specPad3, hlist, hlen, Nat.not_lt.mpr hlen]
  · cases hl : natDigits m with
    | nil => simp [pyZfill, specPad3, hlist, hl]
    | cons c rest =>
      have hc : c = digitChar d := by
        unfold natDigits at hl
        rw [hl] at hh
        simpa using hh
      have hsign := digitChar_not_sign d hd
      rw [hl] at hlen
      have h1 : ¬2 ≤ rest.length := by simp at hlen; omega
      have h2 : rest.length + 1 < 3 := by omega
      simp [pyZfill, specPad3, hlist, hl, hlen, hc, hsign.1, hsign.2, h1, h2]

theorem loadFromData_ok_data (env : Env) (fn : String) (d : Dict)
    (r : LoadOk) (lg : List LogEntry)
    (h : loadFromData env fn d = (.ok r, lg)) : r.data = d := by
  unfold loadFromData at h
  repeat' split at h
  · exact absurd h (by simp)
  · exact absurd h (by simp)
  · injection h with h1 h2
    rcases ht : loadTail env d _ with ⟨res, lg2⟩
    rw [ht] at h1
    cases res with
    | error e => simp at h1
    | ok r2 =>
      cases h1
      exact loadTail_ok_data env d _ _ _ ht

example : pySplit "a_2018.11_b" '_' = ["a", "2018.11", "b"] := by rfl
example : pySplit "a__b" '_' = ["a", "", "b"] := by rfl
example : pySplitExt "a/b/c.json" = ("a/b/c", ".json") := by rfl
example : pySplitExt "region_2018.11_37.5" = ("region_2018.11_37", ".5") := by rfl
example : pyDirname "a/b/c.json" = "a/b" := by rfl
example : pyBasename "a/b/c.json" = "c.json" := by rfl
example : pyJoin "" "x.png" = "x.png" := by rfl
example : pyZfill "7" 3 = "007" := by rfl
example : pyZfill "unknown" 3 = "unknown" := by rfl
example : intRepr 407 = "407" := by rfl
example : pyStr PV.none = "None" := by rfl

/-- Claim C2 (code bug): for the record file `d/g.json` with `imageData: null`
and an `imagePath` from which no image can be opened, `load` does not succeed
with absent image data as the spec says: it logs the error but then raises
`LabelFileError` wrapping the `TypeError` from `base64.b64encode(None)`,
leaving the record unchanged. -/
theorem C2_theorem :
    LabelFile.load exEnv "d/g.json" record0 =
      (record0, some (PyErr.labelFileError Exc.typeError),
       [(LogLevel.error, "Failed opening image file: d/img.png")]) := by
  rfl

/-- Claim C5: whenever `load` fails, it returns a single `LabelFileError`
wrapping exactly the exception at which the attempt failed, and the
previously-loaded record is returned unchanged — no partial state is
committed. -/
theorem C5_theorem (env : Env) (fn : String) (st r : Record) (e : PyErr)
    (lg : List LogEntry)
    (h : LabelFile.load env fn st = (r, some e, lg)) :
    r = st ∧ e = PyErr.labelFileError (attemptExc (loadAttempt env fn).1) := by
  unfold LabelFile.load at h
  rcases ha : loadAttempt env fn with ⟨res, lgg⟩
  rw [ha] at h
  cases res with
  | error c =>
    injection h with h1 h2
    injection h2 with h21 h22
    injection h21 with h21
    exact ⟨h1.symm, by rw [← h21]; rfl⟩
  | ok r2 =>
    injection h with h1 h2
    injection h2 with h21 h22
    cases h21

/-- Claim C5 witness: a concrete failing load (unreadable file) leaves the
fresh record unchanged and wraps the `IOError` cause. -/
theorem C5_witness :
    record0 = record0 ∧
    PyErr.labelFileError Exc.ioError =
      PyErr.labelFileError (attemptExc (loadAttempt exEnv "nope.json").1) :=
  C5_theorem exEnv "nope.json" record0 record0 (PyErr.labelFileError Exc.ioError)
    [] (by rfl)

/-- Claim C3 counterexample: for the exact stem named by the claim,
`region_2018.11_37.5_127.0_extra_extra` (6 tokens), the 6th-from-last token is
`region`, which does not split into two on `.`, so the derivation falls back
to the empty defaults instead of the claimed `2018/11/37.5/127.0`. -/
theorem C3_counterexample :
    deriveMetadata "region_2018.11_37.5_127.0_extra_extra.png" = defaultMeta ∧
    (deriveMetadata "region_2018.11_37.5_127.0_extra_extra.png").latitude ≠ "37.5" := by
  exact ⟨by rfl, by decide⟩

/-- Claim C3 (amended): the `YEAR.MONTH` token must be 6th-from-last, e.g. for
the 7-token stem `region_2018.11_foo_37.5_127.0_extra_extra` the derivation
yields date 2018/11, latitude 37.5, longitude 127.0; and any image path whose
stem has fewer than 6 underscore-separated tokens yields the empty defaults. -/
theorem C3_amended :
    deriveMetadata "region_2018.11_foo_37.5_127.0_extra_extra.png" =
      ⟨PV.pdict [("year", PV.pstr "2018"), ("month", PV.pstr "11")],
       "37.5", "127.0"⟩ ∧
    ∀ p : String, (pySplit (pySplitExt p).1 '_').length < 6 →
      deriveMetadata p = defaultMeta := by
  constructor
  · rfl
  · intro p hlen
    unfold deriveMetadata
    dsimp only
    have h6 : pyNegIdx (pySplit (pySplitExt p).1 '_') 6 = Option.none := by
      unfold pyNegIdx
      rw [if_pos hlen]
    rw [h6]
    cases h3 : pyNegIdx (pySplit (pySplitExt p).1 '_') 3 <;>
      cases h4 : pyNegIdx (pySplit (pySplitExt p).1 '_') 4 <;> rfl

/-- Claim C3 witness: a stem with two tokens falls back to the defaults, and
the 7-token stem derives the full metadata. -/
theorem C3_amended_witness :
    deriveMetadata "a_b.png" = defaultMeta ∧
    deriveMetadata "region_2018.11_foo_37.5_127.0_extra_extra.png" =
      ⟨PV.pdict [("year", PV.pstr "2018"), ("month", PV.pstr "11")],
       "37.5", "127.0"⟩ :=
  ⟨C3_amended.2 "a_b.png" (by decide), C3_amended.1⟩

/-- Claim C9 counterexample: a shape whose `group_id` key is present with a
null value gets `location_id` `id_dir_None` — not the `id_dir_unknown` the
claim requires for an absent group id — because `shape.get('group_id',
'unknown')` only falls back when the key is missing and `str(None)` is
`"None"`. -/
theorem C9_counterexample :
    pvField (formatAEntry "dir" shapeNullGid) "location_id" =
      PV.pstr "id_dir_None" ∧
    pvField (formatAEntry "dir" shapeNullGid) "location_id" ≠
      PV.pstr "id_dir_unknown" := by
  refine ⟨by rfl, fun h => ?_⟩
  have h2 := congrArg pyStr h
  exact absurd h2 (by decide)

/-- Claim C9 (amended): each derived-format-A entry has exactly the keys
`points`, `shape_type`, `class`, `location_id`; `class` equals the shape's
label; `location_id` is `id_<parentDir>_<suffix>` where the suffix is
`unknown` when the `group_id` key is absent, the string `None` when the key
holds null, and the value's digits zero-padded to 3 when it is a nonnegative
integer. -/
theorem C9_amended :
    (∀ (bd : String) (shape : Dict),
      pdictKeysOf (formatAEntry bd shape) =
        ["points", "shape_type", "class", "location_id"]) ∧
    (∀ (bd : String) (shape : Dict) (lv : PV),
      dictGet shape "label" = some lv →
      pvField (formatAEntry bd shape) "class" = lv) ∧
    (∀ (bd : String) (shape : Dict),
      dictGet shape "group_id" = Option.none →
      pvField (formatAEntry bd shape) "location_id" =
        PV.pstr ("id_" ++ bd ++ "_" ++ "unknown")) ∧
    (∀ (bd : String) (shape : Dict),
      dictGet shape "group_id" = some PV.none →
      pvField (formatAEntry bd shape) "location_id" =
        PV.pstr ("id_" ++ bd ++ "_" ++ "None")) ∧
    (∀ (bd : String) (shape : Dict) (m : Nat),
      dictGet shape "group_id" = some (PV.pint (Int.ofNat m)) →
      pvField (formatAEntry bd shape) "location_id" =
        PV.pstr ("id_" ++ bd ++ "_" ++ specPad3 (String.mk (natDigits m)))) := by
  refine ⟨fun bd shape => rfl, fun bd shape lv h => ?_, fun bd shape h => ?_,
    fun bd shape h => ?_, fun bd shape m h => ?_⟩
  · show pvGetD shape "label" PV.none = lv
    unfold pvGetD
    rw [h]
  · show PV.pstr ("id_" ++ bd ++ "_" ++
      pyZfill (pyStr (pvGetD shape "group_id" (PV.pstr "unknown"))) 3) = _
    unfold pvGetD
    rw [h]
    rfl
  · show PV.pstr ("id_" ++ bd ++ "_" ++
      pyZfill (pyStr (pvGetD shape "group_id" (PV.pstr "unknown"))) 3) = _
    unfold pvGetD
    rw [h]
    rfl
  · show PV.pstr ("id_" ++ bd ++ "_" ++
      pyZfill (pyStr (pvGetD shape "group_id" (PV.pstr "unknown"))) 3) = _
    unfold pvGetD
    rw [h]
    show PV.pstr ("id_" ++ bd ++ "_" ++ pyZfill (String.mk (natDigits m)) 3) = _
    rw [pyZfill_natDigits]

/-- Claim C9 witness: the amended statement at concrete shapes — keys, class,
and the three suffix forms `unknown` / `None` / `007`. -/
theorem C9_amended_witness :
    pdictKeysOf (formatAEntry "dir" shapeNullGid) =
      ["points", "shape_type", "class", "location_id"] ∧
    pvField (formatAEntry "dir" shapeNullGid) "class" = PV.pstr "tree" ∧
    pvField (formatAEntry "dir" shapeNoGid) "location_id" =
      PV.pstr ("id_" ++ "dir" ++ "_" ++ "unknown") ∧
    pvField (formatAEntry "dir" shapeNullGid) "location_id" =
      PV.pstr ("id_" ++ "dir" ++ "_" ++ "None") ∧
    pvField (formatAEntry "dir" shapePosGid) "location_id" =
      PV.pstr ("id_" ++ "dir" ++ "_" ++ specPad3 (String.mk (natDigits 7))) :=
  ⟨C9_amended.1 "dir" shapeNullGid,
   C9_amended.2.1 "dir" shapeNullGid (PV.pstr "tree") (by rfl),
   C9_amended.2.2.1 "dir" shapeNoGid (by rfl),
   C9_amended.2.2.2.1 "dir" shapeNullGid (by rfl),
   C9_amended.2.2.2.2 "dir" shapePosGid 7 (by rfl)⟩

/-- Claim C7 counterexample: at a concrete mismatching input the check
substitutes the actual dimensions and returns them, but both log entries are
at `error` level and none is a warning — the code calls `logger.error`, not
`logger.warning`. -/
theorem C7_counterexample :
    LabelFile.check_image_height_and_width exEnv "B64" (PV.pint 99) (PV.pint 77) =
      .ok ((PV.pint 10, PV.pint 20),
           [(LogLevel.error, heightMismatchMsg), (LogLevel.error, widthMismatchMsg)]) ∧
    (checkLogs (LabelFile.check_image_height_and_width exEnv "B64"
        (PV.pint 99) (PV.pint 77))).filter (fun e => e.1 == LogLevel.warning) = [] ∧
    checkLogs (LabelFile.check_image_height_and_width exEnv "B64"
        (PV.pint 99) (PV.pint 77)) ≠ [] := by
  refine ⟨by rfl, by rfl, by decide⟩

/-- Claim C7 (amended): with decodable base64 image data the check never
raises; for each component, a declared value that is present and disagrees
with the decoded one is replaced by the actual value and an error (not a
warning) is logged; the reconciled pair is returned, and no warning-level
entry is ever produced. -/
theorem C7_amended (env : Env) (s : String) (vh vw : PV) (h w : Nat)
    (himg : env.imgB64ToArr s = .ok (h, w)) :
    LabelFile.check_image_height_and_width env s vh vw =
      .ok ((if declaredDisagrees vh h then PV.pint (h : Int) else vh,
            if declaredDisagrees vw w then PV.pint (w : Int) else vw),
           (if declaredDisagrees vh h then [(LogLevel.error, heightMismatchMsg)] else []) ++
           (if declaredDisagrees vw w then [(LogLevel.error, widthMismatchMsg)] else [])) ∧
    (checkLogs (LabelFile.check_image_height_and_width env s vh vw)).filter
      (fun e => e.1 == LogLevel.warning) = [] := by
  have hdd : ∀ (v : PV) (n : Nat),
      declaredDisagrees v n = (!pvIsNone v && !pyIntEqPV n v) := by
    intro v n
    cases v <;> rfl
  have hmain : LabelFile.check_image_height_and_width env s vh vw =
      .ok ((if declaredDisagrees vh h then PV.pint (h : Int) else vh,
            if declaredDisagrees vw w then PV.pint (w : Int) else vw),
           (if declaredDisagrees vh h then [(LogLevel.error, heightMismatchMsg)] else []) ++
           (if declaredDisagrees vw w then [(LogLevel.error, widthMismatchMsg)] else [])) := by
    unfold LabelFile.check_image_height_and_width
    rw [himg]
    rw [hdd, hdd]
  refine ⟨hmain, ?_⟩
  rw [hmain]
  unfold checkLogs
  cases hh : declaredDisagrees vh h <;> cases hw : declaredDisagrees vw w <;>
    simp [hh, hw]

/-- Claim C7 witness: the amended statement at a concrete input with a
mismatching declared height and an absent declared width. -/
theorem C7_amended_witness :
    LabelFile.check_image_height_and_width exEnv "B64" (PV.pint 99) PV.none =
      .ok ((if declaredDisagrees (PV.pint 99) 10 then PV.pint (10 : Int) else PV.pint 99,
            if declaredDisagrees PV.none 20 then PV.pint (20 : Int) else PV.none),
           (if declaredDisagrees (PV.pint 99) 10 then [(LogLevel.error, heightMismatchMsg)] else []) ++
           (if declaredDisagrees PV.none 20 then [(LogLevel.error, widthMismatchMsg)] else [])) ∧
    (checkLogs (LabelFile.check_image_height_and_width exEnv "B64"
        (PV.pint 99) PV.none)).filter (fun e => e.1 == LogLevel.warning) = [] :=
  C7_amended exEnv "B64" (PV.pint 99) PV.none 10 20 (by rfl)

/-- Claim C1 counterexample: loading `d/f.json`, whose declared 99 x 77
dimensions disagree with the decoded 10 x 20 image, succeeds and logs two
error-level messages — no warning-level entry exists — and the produced
record consists of exactly the fields shown (there are no
`imageHeight`/`imageWidth` fields; the reconciled pair computed by the check
was discarded by `load`). -/
theorem C1_counterexample :
    LabelFile.load exEnv "d/f.json" record0 =
      ({ flags := PV.pdict [], shapes := [], imagePath := PV.pstr "a.png",
         imageData := some 1, filename := some "d/f.json", otherData := [],
         date := PV.none, latitude := PV.none, longitude := PV.none },
       Option.none,
       [(LogLevel.error, heightMismatchMsg), (LogLevel.error, widthMismatchMsg)]) ∧
    ((LabelFile.load exEnv "d/f.json" record0).2.2).filter
      (fun e => e.1 == LogLevel.warning) = [] := by
  exact ⟨by rfl, by rfl⟩

/-- Claim C1 (amended): for every record file with embedded image data whose
declared integer dimensions both disagree with the decoded image, the
dimension check invoked by `load` returns the actual decoded dimensions and
`load` logs exactly the two error-level mismatch messages; the reconciled
pair is discarded and the record carries no dimension fields. -/
theorem C1_amended (env : Env) (fn : String) (st : Record) (d0 : Dict)
    (s : String) (b : ByteData) (ipv : PV) (dh dw : Int) (h w : Nat)
    (h1 : env.readJson fn = .ok (PV.pdict d0))
    (h2 : dictGet d0 "imageData" = some (PV.pstr s))
    (h3 : env.b64decode s = .ok b)
    (h4 : dictGet d0 "imagePath" = some ipv)
    (h5 : env.imgB64ToArr (env.b64encode b) = .ok (h, w))
    (h6 : dictGet d0 "imageHeight" = some (PV.pint dh))
    (h7 : dictGet d0 "imageWidth" = some (PV.pint dw))
    (hdh : dh ≠ (h : Int))
    (hdw : dw ≠ (w : Int)) :
    LabelFile.check_image_height_and_width env (env.b64encode b)
        (PV.pint dh) (PV.pint dw) =
      .ok ((PV.pint (h : Int), PV.pint (w : Int)),
           [(LogLevel.error, heightMismatchMsg), (LogLevel.error, widthMismatchMsg)]) ∧
    (LabelFile.load env fn st).2.2 =
      [(LogLevel.error, heightMismatchMsg), (LogLevel.error, widthMismatchMsg)] := by
  have hbh : ((h : Int) == dh) = false := by
    rw [beq_eq_false_iff_ne]
    exact fun hc => hdh hc.symm
  have hbw : ((w : Int) == dw) = false := by
    rw [beq_eq_false_iff_ne]
    exact fun hc => hdw hc.symm
  have hg6 : pvGetD d0 "imageHeight" PV.none = PV.pint dh := by
    unfold pvGetD
    rw [h6]
  have hg7 : pvGetD d0 "imageWidth" PV.none = PV.pint dw := by
    unfold pvGetD
    rw [h7]
  have hchk : LabelFile.check_image_height_and_width env (env.b64encode b)
      (PV.pint dh) (PV.pint dw) =
      .ok ((PV.pint (h : Int), PV.pint (w : Int)),
           [(LogLevel.error, heightMismatchMsg), (LogLevel.error, widthMismatchMsg)]) := by
    unfold LabelFile.check_image_height_and_width
    rw [h5]
    simp [pvIsNone, pyIntEqPV, hbh, hbw]
  have hs1 : dictSubscr d0 "imageData" = .ok (PV.pstr s) := by
    unfold dictSubscr
    rw [h2]
  have hs2 : dictSubscr d0 "imagePath" = .ok ipv := by
    unfold dictSubscr
    rw [h4]
  have htail : loadTail env d0 (some b) =
      ((match loadShapesStep env d0 with
        | .error e => (.error e : Except Exc LoadOk)
        | .ok shapes =>
          .ok ⟨d0,
               (if pyTruthy (pvGetD d0 "flags" PV.none) then
                  pvGetD d0 "flags" PV.none
                else PV.pdict []),
               shapes, ipv, some b⟩),
       [(LogLevel.error, heightMismatchMsg), (LogLevel.error, widthMismatchMsg)]) := by
    unfold loadTail
    dsimp only
    rw [hs2, hg6, hg7, hchk]
    cases hsh : loadShapesStep env d0 <;> rfl
  refine ⟨hchk, ?_⟩
  unfold LabelFile.load loadAttempt
  rw [h1]
  dsimp only
  unfold loadFromData
  rw [hs1]
  dsimp only
  have hib : loadImageBytes env fn d0 (PV.pstr s) = (.ok (some b), []) := by
    show (Except.map some (env.b64decode s), ([] : List LogEntry)) = _
    rw [h3]
    rfl
  rw [hib]
  dsimp only
  rw [htail]
  cases hsh : loadShapesStep env d0 <;> rfl

/-- Claim C1 witness: the amended statement at the concrete record file
`d/f.json` (declared 99 x 77 against actual 10 x 20). -/
theorem C1_amended_witness :
    LabelFile.check_image_height_and_width exEnv (exEnv.b64encode 1)
        (PV.pint 99) (PV.pint 77) =
      .ok ((PV.pint (10 : Int), PV.pint (20 : Int)),
           [(LogLevel.error, heightMismatchMsg), (LogLevel.error, widthMismatchMsg)]) ∧
    (LabelFile.load exEnv "d/f.json" record0).2.2 =
      [(LogLevel.error, heightMismatchMsg), (LogLevel.error, widthMismatchMsg)] :=
  C1_amended exEnv "d/f.json" record0
    [("imageData", PV.pstr "B64"), ("imagePath", PV.pstr "a.png"),
     ("shapes", PV.plist []), ("imageHeight", PV.pint 99),
     ("imageWidth", PV.pint 77)]
    "B64" 1 (PV.pstr "a.png") 99 77 10 20
    (by rfl) (by rfl) (by rfl) (by rfl) (by rfl) (by rfl) (by rfl)
    (by decide) (by decide)

theorem canonicalDict_hasKey_true (ver : String) (flg : PV)
    (shapes : List Dict) (ip : String) (encOpt : Option String) (a b : PV)
    (k : String)
    (hk : k ∈ ["version", "flags", "shapes", "imagePath", "imageData",
               "imageHeight", "imageWidth"]) :
    dictHasKey (canonicalDict ver flg shapes ip encOpt a b) k = true := by
  fin_cases hk <;> rfl

theorem canonicalDict_hasKey_false (ver : String) (flg : PV)
    (shapes : List Dict) (ip : String) (encOpt : Option String) (a b : PV)
    (k : String)
    (hk : k ∉ ["version", "flags", "shapes", "imagePath", "imageData",
               "imageHeight", "imageWidth"]) :
    dictHasKey (canonicalDict ver flg shapes ip encOpt a b) k = false := by
  simp only [List.mem_cons, List.not_mem_nil, or_false, not_or] at hk
  simp only [canonicalDict, dictHasKey, Bool.or_eq_false_iff,
    beq_eq_false_iff_ne, ne_eq]
  refine ⟨?_, ?_, ?_, ?_, ?_, ?_, ?_, trivial⟩ <;> intro e
  · exact hk.1 e.symm
  · exact hk.2.1 e.symm
  · exact hk.2.2.1 e.symm
  · exact hk.2.2.2.1 e.symm
  · exact hk.2.2.2.2.1 e.symm
  · exact hk.2.2.2.2.2.1 e.symm
  · exact hk.2.2.2.2.2.2 e.symm

theorem formatADict_hasKey_true (ver : String) (flg : PV)
    (shapes : List Dict) (bd ip : String) (encOpt : Option String) (a b : PV)
    (md : DerivedMeta) (k : String)
    (hk : k ∈ ["date", "latitude", "longitude"]) :
    dictHasKey (formatADict ver flg shapes bd ip encOpt a b md) k = true := by
  fin_cases hk <;> rfl

/-- Claim C6: an `otherData` key that collides with any canonical output key
(`version`, `flags`, `shapes`, `imagePath`, `imageData`, `imageHeight`,
`imageWidth`) makes `save` fail before any of the three output files is
written: no write (and no directory creation) happens at all. -/
theorem C6_theorem (env : Env) (fn : String) (shapes : List Dict) (ip : String)
    (ih iw : PV) (imgD : Option ByteData) (od : Dict) (flg : Option PV)
    (kv : String × PV) (hmem : kv ∈ od)
    (hcanon : kv.1 ∈ ["version", "flags", "shapes", "imagePath", "imageData",
                      "imageHeight", "imageWidth"]) :
    (LabelFile.save env fn shapes ip ih iw imgD (some od) flg).writes = [] ∧
    (LabelFile.save env fn shapes ip ih iw imgD (some od) flg).dirs = [] ∧
    (LabelFile.save env fn shapes ip ih iw imgD (some od) flg).error.isSome = true := by
  unfold LabelFile.save
  cases hprep : savePrepare env imgD ih iw with
  | error e => exact ⟨rfl, rfl, rfl⟩
  | ok prep =>
    cases flg with
    | none =>
      dsimp only [optD]
      rw [mergeOther_error_of_mem od
        (canonicalDict env.version (PV.pdict [])
          shapes ip prep.1 prep.2.1 prep.2.2.1)
        kv hmem (canonicalDict_hasKey_true _ _ _ _ _ _ _ _ hcanon)]
      exact ⟨rfl, rfl, rfl⟩
    | some f =>
      dsimp only [optD]
      rw [mergeOther_error_of_mem od
        (canonicalDict env.version f shapes ip prep.1 prep.2.1 prep.2.2.1)
        kv hmem (canonicalDict_hasKey_true _ _ _ _ _ _ _ _ hcanon)]
      exact ⟨rfl, rfl, rfl⟩

/-- Claim C6 witness: a concrete save whose `otherData` contains the key
`shapes` writes nothing and fails. -/
theorem C6_witness :
    (LabelFile.save exEnv "top/dir/out.json" shapesEx "p.png" PV.none PV.none
      Option.none (some [("shapes", PV.pstr "x")]) Option.none).writes = [] ∧
    (LabelFile.save exEnv "top/dir/out.json" shapesEx "p.png" PV.none PV.none
      Option.none (some [("shapes", PV.pstr "x")]) Option.none).dirs = [] ∧
    (LabelFile.save exEnv "top/dir/out.json" shapesEx "p.png" PV.none PV.none
      Option.none (some [("shapes", PV.pstr "x")]) Option.none).error.isSome = true :=
  C6_theorem exEnv "top/dir/out.json" shapesEx "p.png" PV.none PV.none
    Option.none [("shapes", PV.pstr "x")] Option.none ("shapes", PV.pstr "x")
    (List.mem_cons_self _ _) (by decide)

/-- Claim C10: an `otherData` key `date`, `latitude` or `longitude` passes the
canonical file's collision check (those keys are not in the canonical output
object) but collides in derived format A; since the check runs separately per
output file, `save` writes the canonical file and then fails on the
`AssertionError` before writing format A — a partial, one-file write. -/
theorem C10_theorem (env : Env) (fn : String) (shapes : List Dict) (ip : String)
    (ih iw : PV) (imgD : Option ByteData) (od : Dict) (flgv : PV)
    (encOpt : Option String) (ih2 iw2 : PV) (lg : List LogEntry)
    (kv : String × PV) (hmem : kv ∈ od)
    (hk : kv.1 ∈ ["date", "latitude", "longitude"])
    (hdisj : ∀ kv2 ∈ od, kv2.1 ∉ ["version", "flags", "shapes", "imagePath",
      "imageData", "imageHeight", "imageWidth"])
    (hnd : (od.map Prod.fst).Nodup)
    (hprep : savePrepare env imgD ih iw = .ok (encOpt, ih2, iw2, lg))
    (hwrite : env.writeOk fn = true)
    (hdump : jsonDumpOk (PV.pdict
      (canonicalDict env.version flgv shapes ip encOpt ih2 iw2 ++ od)) = true) :
    (LabelFile.save env fn shapes ip ih iw imgD (some od) (some flgv)).writes =
      [(fn, PV.pdict (canonicalDict env.version flgv shapes ip encOpt ih2 iw2 ++ od))] ∧
    (LabelFile.save env fn shapes ip ih iw imgD (some od) (some flgv)).error =
      some PyErr.assertionError := by
  unfold LabelFile.save
  rw [hprep]
  dsimp only [optD]
  have hmC : mergeOther (canonicalDict env.version flgv shapes ip encOpt ih2 iw2) od =
      .ok (canonicalDict env.version flgv shapes ip encOpt ih2 iw2 ++ od) :=
    mergeOther_ok_of_disjoint od _
      (fun kv2 h2 => canonicalDict_hasKey_false _ _ _ _ _ _ _ _ (hdisj kv2 h2))
      hnd
  rw [hmC]
  dsimp only
  have hwj : writeJson env fn (PV.pdict
      (canonicalDict env.version flgv shapes ip encOpt ih2 iw2 ++ od)) = .ok () := by
    unfold writeJson
    rw [hwrite, hdump]
    rfl
  rw [hwj]
  dsimp only
  rw [mergeOther_error_of_mem od _ kv hmem
    (formatADict_hasKey_true _ _ _ _ _ _ _ _ _ _ hk)]
  exact ⟨rfl, rfl⟩

/-- Claim C10 witness: a concrete save whose `otherData` is `{date: "x"}`
writes exactly the canonical file and then fails with the assertion. -/
theorem C10_witness :
    (LabelFile.save exEnv "top/dir/out.json" shapesEx "p.png" PV.none PV.none
      Option.none (some [("date", PV.pstr "x")]) (some (PV.pdict []))).writes =
      [("top/dir/out.json", PV.pdict
        (canonicalDict exEnv.version (PV.pdict []) shapesEx "p.png"
          Option.none PV.none PV.none ++ [("date", PV.pstr "x")]))] ∧
    (LabelFile.save exEnv "top/dir/out.json" shapesEx "p.png" PV.none PV.none
      Option.none (some [("date", PV.pstr "x")]) (some (PV.pdict []))).error =
      some PyErr.assertionError :=
  C10_theorem exEnv "top/dir/out.json" shapesEx "p.png" PV.none PV.none
    Option.none [("date", PV.pstr "x")] (PV.pdict []) Option.none PV.none PV.none
    [] ("date", PV.pstr "x") (List.mem_cons_self _ _) (by decide)
    (by decide) (by decide) (by rfl) (by rfl) (by rfl)

/-- Claim C8: when a `save` call succeeds, the derived-format-A and -B output
objects each carry exactly the input shapes transformed elementwise by the
respective per-shape entry map — so each has exactly as many shape entries as
the input list, the `i`-th derived from the `i`-th input shape. -/
theorem C8_theorem (env : Env) (fn : String) (shapes : List Dict) (ip : String)
    (ih iw : PV) (imgD : Option ByteData) (other : Option Dict) (flg : Option PV)
    (herr : (LabelFile.save env fn shapes ip ih iw imgD other flg).error = Option.none) :
    pvField (writeContent (LabelFile.save env fn shapes ip ih iw imgD other flg) 1)
        "shapes" =
      PV.plist (shapes.map (formatAEntry (pyBasename (pyDirname fn)))) ∧
    pvField (writeContent (LabelFile.save env fn shapes ip ih iw imgD other flg) 2)
        "shapes" =
      PV.plist (shapes.map formatBEntry) ∧
    (shapes.map (formatAEntry (pyBasename (pyDirname fn)))).length = shapes.length ∧
    (shapes.map formatBEntry).length = shapes.length := by
  unfold LabelFile.save at herr ⊢
  dsimp only at herr ⊢
  cases hP : savePrepare env imgD ih iw with
  | error e =>
    rw [hP] at herr
    dsimp only at herr
    cases herr
  | ok prep =>
    rw [hP] at herr
    dsimp only at herr ⊢
    cases hMC : mergeOther
        (canonicalDict env.version (optD flg (PV.pdict []))
          shapes ip prep.1 prep.2.1 prep.2.2.1)
        (optD other []) with
    | error e =>
      rw [hMC] at herr
      dsimp only at herr
      cases herr
    | ok dC =>
      rw [hMC] at herr
      dsimp only at herr ⊢
      cases hWC : writeJson env fn (PV.pdict dC) with
      | error e =>
        rw [hWC] at herr
        dsimp only at herr
        cases herr
      | ok u1 =>
        rw [hWC] at herr
        dsimp only at herr ⊢
        cases hMA : mergeOther
            (formatADict env.version (optD flg (PV.pdict []))
              shapes (pyBasename (pyDirname fn)) ip prep.1 prep.2.1 prep.2.2.1
              (deriveMetadata ip))
            (optD other []) with
        | error e =>
          rw [hMA] at herr
          dsimp only at herr
          cases herr
        | ok dA =>
          rw [hMA] at herr
          dsimp only at herr ⊢
          cases hWA : writeJson env
              (pyJoin (pyJoin (pyDirname (pyDirname fn))
                (pyBasename (pyDirname fn) ++ "_labeled")) (pyBasename fn))
              (PV.pdict dA) with
          | error e =>
            rw [hWA] at herr
            dsimp only at herr
            cases herr
          | ok u2 =>
            rw [hWA] at herr
            dsimp only at herr ⊢
            cases hMB : mergeOther
                (formatBDict env.version (optD flg (PV.pdict []))
                  shapes ip prep.1 prep.2.1 prep.2.2.1)
                (optD other []) with
            | error e =>
              rw [hMB] at herr
              dsimp only at herr
              cases herr
            | ok dB =>
              rw [hMB] at herr
              dsimp only at herr ⊢
              cases hWB : writeJson env
                  (pyJoin (pyJoin (pyDirname (pyDirname fn))
                    (pyBasename (pyDirname fn) ++ "_labeled_formatted"))
                  (pyBasename fn)) (PV.pdict dB) with
              | error e =>
                rw [hWB] at herr
                dsimp only at herr
                cases herr
              | ok u3 =>
                dsimp only
                have hdA := mergeOther_ok_eq _ _ _ hMA
                have hdB := mergeOther_ok_eq _ _ _ hMB
                subst hdA
                subst hdB
                refine ⟨?_, ?_, List.length_map _ _, List.length_map _ _⟩
                · simp only [writeContent, pvField, pvGetD, List.getD,
                    List.get?_cons_succ, List.get?_cons_zero, Option.getD_some]
                  rw [dictGet_append_left
                    (formatADict env.version (optD flg (PV.pdict [])) shapes
                      (pyBasename (pyDirname fn)) ip prep.1 prep.2.1 prep.2.2.1
                      (deriveMetadata ip))
                    (optD other []) "shapes"
                    (PV.plist (shapes.map (formatAEntry (pyBasename (pyDirname fn)))))
                    (by rfl)]
                · simp only [writeContent, pvField, pvGetD, List.getD,
                    List.get?_cons_succ, List.get?_cons_zero, Option.getD_some]
                  rw [dictGet_append_left
                    (formatBDict env.version (optD flg (PV.pdict [])) shapes ip
                      prep.1 prep.2.1 prep.2.2.1)
                    (optD other []) "shapes"
                    (PV.plist (shapes.map formatBEntry))
                    (by rfl)]

/-- Claim C8 witness: the successful three-file save of two shapes carries the
two transformed entries, in order, in both derived outputs. -/
theorem C8_witness :
    pvField (writeContent (LabelFile.save exEnv "top/dir/out.json" shapesEx
        "p.png" PV.none PV.none Option.none Option.none Option.none) 1)
        "shapes" =
      PV.plist (shapesEx.map (formatAEntry (pyBasename (pyDirname "top/dir/out.json")))) ∧
    pvField (writeContent (LabelFile.save exEnv "top/dir/out.json" shapesEx
        "p.png" PV.none PV.none Option.none Option.none Option.none) 2)
        "shapes" =
      PV.plist (shapesEx.map formatBEntry) ∧
    (shapesEx.map (formatAEntry (pyBasename (pyDirname "top/dir/out.json")))).length =
      shapesEx.length ∧
    (shapesEx.map formatBEntry).length = shapesEx.length :=
  C8_theorem exEnv "top/dir/out.json" shapesEx "p.png" PV.none PV.none
    Option.none Option.none Option.none (by rfl)

/-- Claim C4 counterexample: after a load→save cycle of a record whose shape
carries the unrecognized key `custom`, the canonical output's shape object
does not map `custom` at all — its keys are exactly the eight canonical ones —
while the input shape mapped it to `5`; the value survives only nested inside
the shape's `other_data` object. -/
theorem C4_counterexample :
    pdictKeysOf (pvItem (pvField (writeContent svC4 0) "shapes") 0) =
      ["label", "points", "shape_type", "flags", "description", "group_id",
       "mask", "other_data"] ∧
    pvField (pvItem (pvField (PV.pdict c4data) "shapes") 0) "custom" =
      PV.pint 5 ∧
    pvField (pvField (pvItem (pvField (writeContent svC4 0) "shapes") 0)
        "other_data") "custom" = PV.pint 5 := by
  exact ⟨by rfl, by rfl, by rfl⟩

/-- Claim C4 (amended): every top-level key not in the recognized record-key
set survives a load followed by a save (with the loaded record's own shapes
and otherData) unchanged in the canonical output object; a shape-level
unrecognized key, however, does not reappear as a key of the normalized shape
— it is preserved verbatim inside the shape's `other_data` mapping. -/
theorem C4_amended :
    (∀ (env env2 : Env) (fn fn2 : String) (st rec : Record) (d0 : Dict)
        (lg : List LogEntry) (k : String) (v : PV) (ip : String) (ih iw : PV)
        (imgD : Option ByteData) (flg : Option PV) (dC : Dict),
      env.readJson fn = .ok (PV.pdict d0) →
      LabelFile.load env fn st = (rec, Option.none, lg) →
      k ∉ recordKeys →
      dictGet d0 k = some v →
      (LabelFile.save env2 fn2 rec.shapes ip ih iw imgD (some rec.otherData)
          flg).writes.head? = some (fn2, PV.pdict dC) →
      dictGet dC k = some v) ∧
    (∀ (env : Env) (kvs sd : Dict) (k1 : String) (v1 : PV),
      loadShape env (PV.pdict kvs) = .ok sd →
      k1 ∉ shapeKeys →
      k1 ≠ "other_data" →
      dictGet kvs k1 = some v1 →
      dictGet sd k1 = Option.none ∧
      dictGet sd "other_data" =
        some (PV.pdict (kvs.filter (fun kv => !(shapeKeys.contains kv.1)))) ∧
      dictGet (kvs.filter (fun kv => !(shapeKeys.contains kv.1))) k1 = some v1) := by
  constructor
  · intro env env2 fn fn2 st rec d0 lg k v ip ih iw imgD flg dC h1 h2 hk h4 h5
    have hcf : recordKeys.contains k = false := by
      cases hc : recordKeys.contains k with
      | false => rfl
      | true => exact absurd (List.elem_iff.mp hc) hk
    have hod : rec.otherData =
        d0.filter (fun kv => !(recordKeys.contains kv.1)) := by
      unfold LabelFile.load at h2
      rcases ha : loadAttempt env fn with ⟨res, lgg⟩
      rw [ha] at h2
      cases res with
      | error c =>
        injection h2 with h21 h22
        injection h22 with h22a
        cases h22a
      | ok r =>
        injection h2 with h21 h22
        have hdata : r.data = d0 := by
          unfold loadAttempt at ha
          rw [h1] at ha
          exact loadFromData_ok_data env fn d0 r lgg ha
        rw [← h21]
        dsimp only
        rw [hdata]
    have hmem7 : k ∉ ["version", "flags", "shapes", "imagePath", "imageData",
        "imageHeight", "imageWidth"] := by
      intro hmem
      refine hk ?_
      fin_cases hmem <;> decide
    have hconc : ∀ (encOpt : Option String) (ih2 iw2 : PV),
        dictGet ((canonicalDict env2.version (optD flg (PV.pdict []))
          rec.shapes ip encOpt ih2 iw2) ++ rec.otherData) k = some v := by
      intro encOpt ih2 iw2
      rw [dictGet_append_right _ _ _
        (canonicalDict_hasKey_false _ _ _ _ _ _ _ k hmem7)]
      rw [hod, dictGet_filter d0 _ k
        (fun v2 => by
          show (!(recordKeys.contains k)) = true
          rw [hcf]
          rfl)]
      exact h4
    unfold LabelFile.save at h5
    dsimp only at h5
    cases hP : savePrepare env2 imgD ih iw with
    | error e =>
      rw [hP] at h5
      dsimp only at h5
      cases h5
    | ok prep =>
      rw [hP] at h5
      dsimp only at h5
      cases hMC : mergeOther (canonicalDict env2.version (optD flg (PV.pdict []))
          rec.shapes ip prep.1 prep.2.1 prep.2.2.1)
          (optD (some rec.otherData) []) with
      | error e =>
        rw [hMC] at h5
        dsimp only at h5
        cases h5
      | ok dC0 =>
        rw [hMC] at h5
        dsimp only at h5
        have hdC0 := mergeOther_ok_eq _ _ _ hMC
        cases hWC : writeJson env2 fn2 (PV.pdict dC0) with
        | error e =>
          rw [hWC] at h5
          dsimp only at h5
          cases h5
        | ok u1 =>
          rw [hWC] at h5
          dsimp only at h5
          repeat' split at h5
          all_goals
            (dsimp only at h5
             injection h5 with h5a
             injection h5a with h5b h5c
             injection h5c with h5d
             rw [← h5d, hdC0]
             exact hconc prep.1 prep.2.1 prep.2.2.1)
  · intro env kvs sd k1 v1 hload hk1 hod1 hget
    have hcf : shapeKeys.contains k1 = false := by
      cases hc : shapeKeys.contains k1 with
      | false => rfl
      | true => exact absurd (List.elem_iff.mp hc) hk1
    have hne : k1 ≠ "label" ∧ k1 ≠ "points" ∧ k1 ≠ "group_id" ∧
        k1 ≠ "shape_type" ∧ k1 ≠ "flags" ∧ k1 ≠ "description" ∧
        k1 ≠ "mask" := by
      simpa [shapeKeys, not_or] using hk1
    obtain ⟨n1, n2, n3, n4, n5, n6, n7⟩ := hne
    unfold loadShape at hload
    dsimp only at hload
    repeat' split at hload
    all_goals cases hload
    refine ⟨?_, by rfl, ?_⟩
    · simp [dictGet, beq_eq_false_iff_ne, Ne.symm n1, Ne.symm n2, Ne.symm n3,
        Ne.symm n4, Ne.symm n5, Ne.symm n6, Ne.symm n7, Ne.symm hod1]
    · rw [dictGet_filter kvs _ k1
        (fun v2 => by
          show (!(shapeKeys.contains k1)) = true
          rw [hcf]
          rfl)]
      exact hget

/-- Claim C4 witness: the amended statement at the concrete record `d/h.json`
— the top-level key `extra` survives into the canonical output, and the
shape-level key `custom` lands nested in `other_data`. -/
theorem C4_witness :
    dictGet c4dC "extra" = some (PV.pstr "keepme") ∧
    (dictGet sdC4 "custom" = Option.none ∧
     dictGet sdC4 "other_data" =
       some (PV.pdict (c4shape.filter (fun kv => !(shapeKeys.contains kv.1)))) ∧
     dictGet (c4shape.filter (fun kv => !(shapeKeys.contains kv.1))) "custom" =
       some (PV.pint 5)) :=
  ⟨C4_amended.1 exEnv exEnv "d/h.json" "t/u/out.json" record0 recC4 c4data []
      "extra" (PV.pstr "keepme") "a.png" PV.none PV.none recC4.imageData
      Option.none c4dC (by rfl) (by rfl) (by decide) (by rfl) (by rfl),
   C4_amended.2 exEnv c4shape sdC4 "custom" (PV.pint 5) (by rfl) (by decide)
      (by decide) (by rfl)⟩
